import Mathlib

/-! DirectusTexture: drag-and-drop texture label of the editor

A shallow embedding of `src/Editor/DirectusTexture.cpp`.

The widget lives in a world of toolkit objects.  Every object the widget
creates (`new QThread()`, `new DirectusAssetLoader()`) is stored in a list and
is named by its index there; a connection made by `connect` is a row of a
connection table; delivering a signal runs, in connection order, every slot
that is connected to it.  Calls that leave the file (toolkit calls and engine
calls) are also appended, in program order, to a call log, so that "exactly
once" and "in that order" can be stated.

Pointers that the source dereferences are `Option` values (`none` is the null
pointer, or a member that was never assigned); a handler that dereferences
`none` has no defined behaviour and the embedding returns `none` for it.
-/

namespace DirectusTexture

/-! ## Toolkit and engine values -/

/-- Values of `Qt::DropAction`. -/
inductive DropAction where
  | CopyAction
  | MoveAction
  | LinkAction
  | IgnoreAction
  deriving DecidableEq, Repr

/-- Values of `QThread::Priority`. -/
inductive Priority where
  | IdlePriority
  | LowestPriority
  | LowPriority
  | NormalPriority
  | HighPriority
  | HighestPriority
  | TimeCriticalPriority
  | InheritPriority
  deriving DecidableEq, Repr

/-- A toolkit string; `toStdString` gives the `std::string` with the same characters. -/
structure QString where
  data : String
  deriving DecidableEq, Repr

/-- Conversion `QString::toStdString()`. -/
def QString.toStdString (s : QString) : String := s.data

/-- The two queries the handlers make on `QMimeData`. They are independent
toolkit answers: nothing is assumed about `text` when `hasText` is false. -/
structure QMimeData where
  hasText : Bool
  text : QString
  deriving DecidableEq, Repr

/-- An image value, as carried by the `ImageReady(QPixmap)` signal. -/
structure QPixmap where
  handle : Nat
  deriving DecidableEq, Repr

/-- Address of a `GameObject` of the engine. -/
structure GameObject where
  addr : Nat
  deriving DecidableEq, Repr

/-- Address of the `DirectusCore`. -/
structure DirectusCore where
  addr : Nat
  deriving DecidableEq, Repr

/-- Address of the `DirectusInspector`. -/
structure DirectusInspector where
  addr : Nat
  deriving DecidableEq, Repr

/-- Address of the engine socket returned by `DirectusCore::GetEngineSocket()`. -/
structure Socket where
  addr : Nat
  deriving DecidableEq, Repr

/-- Value of the engine enumeration `TextureType`. -/
structure TextureType where
  value : Nat
  deriving DecidableEq, Repr

/-! ## Drag and drop events -/

/-- Member functions the handlers call on an event. -/
inductive EventCall where
  | ignore
  | setDropAction (a : DropAction)
  | accept
  deriving DecidableEq, Repr

/-- A `QDropEvent` (`QDragMoveEvent` and `QDragEnterEvent` derive from it):
its mime data, its current drop action, its accept flag, and the log of the
member functions that were called on it. -/
structure QDropEvent where
  mimeData : QMimeData
  dropAction : DropAction
  accepted : Bool
  calls : List EventCall
  deriving DecidableEq, Repr

abbrev QDragMoveEvent := QDropEvent

abbrev QDragEnterEvent := QDropEvent

/-- Member `event->ignore()`. -/
def QDropEvent.ignore (e : QDropEvent) : QDropEvent :=
  { e with accepted := false, calls := e.calls ++ [EventCall.ignore] }

/-- Member `event->setDropAction(a)`. -/
def QDropEvent.setDropAction (a : DropAction) (e : QDropEvent) : QDropEvent :=
  { e with dropAction := a, calls := e.calls ++ [EventCall.setDropAction a] }

/-- Member `event->accept()`. -/
def QDropEvent.accept (e : QDropEvent) : QDropEvent :=
  { e with accepted := true, calls := e.calls ++ [EventCall.accept] }

/-! ## Toolkit objects, signals and slots -/

/-- What is recorded of a `QThread` object created by the widget. -/
structure QThread where
  started : Option Priority
  quitRequested : Bool
  deleteLaterRequested : Bool
  deriving DecidableEq, Repr

/-- What is recorded of a `DirectusAssetLoader` object created by the widget:
the thread it was moved to, the arguments of `PrepareForTexture`, how often its
slot `LoadTexture` ran, and whether its slot `deleteLater` ran.  The class
itself is outside this file; only the calls it receives are recorded. -/
structure DirectusAssetLoader where
  thread : Option Nat
  prepared : Option (String × Nat × Nat)
  loadTextureCalls : Nat
  deleteLaterRequested : Bool
  deriving DecidableEq, Repr

/-- An object that can send a signal or own a slot. -/
inductive Obj where
  | thread (t : Nat)
  | loader (l : Nat)
  | this
  deriving DecidableEq, Repr

/-- The signal signatures named in `SIGNAL(...)`. -/
inductive SignalName where
  | started
  | finished
  | ImageReady
  | Finished
  deriving DecidableEq, Repr

/-- The slot signatures named in `SLOT(...)`. -/
inductive SlotName where
  | LoadTexture
  | setPixmap
  | quit
  | deleteLater
  deriving DecidableEq, Repr

/-- An emitted signal with its argument. -/
inductive Signal where
  | started
  | finished
  | ImageReady (px : QPixmap)
  | Finished
  deriving DecidableEq, Repr

/-- Signature of an emitted signal. -/
def Signal.name : Signal → SignalName
  | Signal.started => SignalName.started
  | Signal.finished => SignalName.finished
  | Signal.ImageReady _ => SignalName.ImageReady
  | Signal.Finished => SignalName.Finished

/-- One row of the connection table. -/
structure Connection where
  sender : Obj
  signal : SignalName
  receiver : Obj
  slot : SlotName
  deriving DecidableEq, Repr

/-- Calls that leave the file, in program order. -/
inductive Call where
  | newQThread (t : Nat)
  | newDirectusAssetLoader (l : Nat)
  | moveToThread (l t : Nat)
  | PrepareForTexture (l : Nat) (filePath : String) (width height : Nat)
  | connect (c : Connection)
  | start (t : Nat) (p : Priority)
  | SetMaterialTexture (s : Socket) (g : GameObject) (t : TextureType) (path : String)
  | Update (c : DirectusCore)
  deriving DecidableEq, Repr

/-- Engine calls: `SetMaterialTexture` and `Update`. -/
def Call.isEngineCall : Call → Bool
  | Call.SetMaterialTexture _ _ _ _ => true
  | Call.Update _ => true
  | _ => false

/-! ## The widget -/

/-- Members of `DirectusTexture`, with the two `QLabel` properties the file
touches (`acceptDrops`, `pixmap`). -/
structure Fields where
  acceptDrops : Bool
  pixmap : Option QPixmap
  m_directusCore : Option DirectusCore
  m_inspector : Option DirectusInspector
  m_textureType : Option TextureType
  m_currentFilePath : String
  deriving DecidableEq, Repr

/-- The widget together with the toolkit objects it created. -/
structure World where
  self : Fields
  threads : List QThread
  loaders : List DirectusAssetLoader
  connections : List Connection
  calls : List Call
  deriving DecidableEq, Repr

/-- Apply `f` to the element at position `i`, if there is one. -/
def modifyAt {α : Type} (f : α → α) : Nat → List α → List α
  | _, [] => []
  | 0, x :: xs => f x :: xs
  | n + 1, x :: xs => x :: modifyAt f n xs

/-- Constructor `DirectusTexture::DirectusTexture`: `setAcceptDrops(true)`;
the string member is default-constructed (empty), the other members are not
assigned. -/
def construct : World :=
  { self :=
      { acceptDrops := true
        pixmap := none
        m_directusCore := none
        m_inspector := none
        m_textureType := none
        m_currentFilePath := "" }
    threads := []
    loaders := []
    connections := []
    calls := [] }

/-- Method `DirectusTexture::Initialize`. -/
def Initialize (directusCore : Option DirectusCore) (inspector : Option DirectusInspector)
    (textureType : TextureType) (w : World) : World :=
  { w with
    self :=
      { w.self with
        m_directusCore := directusCore
        m_inspector := inspector
        m_textureType := some textureType } }

/-- Expression `new QThread()`: the new object and the world that holds it. -/
def newQThread (w : World) : Nat × World :=
  (w.threads.length,
    { w with
      threads := w.threads ++
        [{ started := none, quitRequested := false, deleteLaterRequested := false }]
      calls := w.calls ++ [Call.newQThread w.threads.length] })

/-- Expression `new DirectusAssetLoader()`. -/
def newDirectusAssetLoader (w : World) : Nat × World :=
  (w.loaders.length,
    { w with
      loaders := w.loaders ++
        [{ thread := none, prepared := none, loadTextureCalls := 0,
           deleteLaterRequested := false }]
      calls := w.calls ++ [Call.newDirectusAssetLoader w.loaders.length] })

/-- Call `imageLoader->moveToThread(thread)`. -/
def moveToThread (l t : Nat) (w : World) : World :=
  { w with
    loaders := modifyAt (fun x => { x with thread := some t }) l w.loaders
    calls := w.calls ++ [Call.moveToThread l t] }

/-- Call `imageLoader->PrepareForTexture(filePath, width, height)`. -/
def PrepareForTexture (l : Nat) (filePath : String) (width height : Nat) (w : World) : World :=
  { w with
    loaders := modifyAt (fun x => { x with prepared := some (filePath, width, height) }) l w.loaders
    calls := w.calls ++ [Call.PrepareForTexture l filePath width height] }

/-- Call `connect(sender, SIGNAL(signal), receiver, SLOT(slot))`. -/
def connect (sender : Obj) (signal : SignalName) (receiver : Obj) (slot : SlotName)
    (w : World) : World :=
  { w with
    connections := w.connections ++ [⟨sender, signal, receiver, slot⟩]
    calls := w.calls ++ [Call.connect ⟨sender, signal, receiver, slot⟩] }

/-- Call `thread->start(priority)`. The thread's `started` signal is emitted
later, from the new thread; it is not part of this call. -/
def start (t : Nat) (p : Priority) (w : World) : World :=
  { w with
    threads := modifyAt (fun x => { x with started := some p }) t w.threads
    calls := w.calls ++ [Call.start t p] }

/-- Method `DirectusTexture::LoadImageAsync`. -/
def LoadImageAsync (filePath : String) (w : World) : World :=
  if w.self.m_currentFilePath == filePath then
    w
  else
    let w := { w with self := { w.self with m_currentFilePath := filePath } }
    let (thread, w) := newQThread w
    let (imageLoader, w) := newDirectusAssetLoader w
    let w := moveToThread imageLoader thread w
    let w := PrepareForTexture imageLoader filePath 20 20 w
    let w := connect (Obj.thread thread) SignalName.started (Obj.loader imageLoader)
      SlotName.LoadTexture w
    let w := connect (Obj.loader imageLoader) SignalName.ImageReady Obj.this SlotName.setPixmap w
    let w := connect (Obj.loader imageLoader) SignalName.Finished (Obj.thread thread)
      SlotName.quit w
    let w := connect (Obj.loader imageLoader) SignalName.Finished (Obj.loader imageLoader)
      SlotName.deleteLater w
    let w := connect (Obj.thread thread) SignalName.finished (Obj.thread thread)
      SlotName.deleteLater w
    start thread Priority.HighestPriority w

/-- Running one connected slot on its receiver.  `setPixmap(QPixmap)` needs the
pixmap argument, which only `ImageReady(QPixmap)` carries; the other slots take
no argument.  A slot the receiver does not have does nothing. -/
def runSlot (receiver : Obj) (slot : SlotName) (sig : Signal) (w : World) : World :=
  match receiver, slot, sig with
  | Obj.loader l, SlotName.LoadTexture, _ =>
      { w with
        loaders :=
          modifyAt (fun x => { x with loadTextureCalls := x.loadTextureCalls + 1 }) l w.loaders }
  | Obj.this, SlotName.setPixmap, Signal.ImageReady px =>
      { w with self := { w.self with pixmap := some px } }
  | Obj.thread t, SlotName.quit, _ =>
      { w with threads := modifyAt (fun x => { x with quitRequested := true }) t w.threads }
  | Obj.thread t, SlotName.deleteLater, _ =>
      { w with threads := modifyAt (fun x => { x with deleteLaterRequested := true }) t w.threads }
  | Obj.loader l, SlotName.deleteLater, _ =>
      { w with loaders := modifyAt (fun x => { x with deleteLaterRequested := true }) l w.loaders }
  | _, _, _ => w

/-- Does the connection listen to this signal of this sender? -/
def Connection.listens (sender : Obj) (sig : Signal) (c : Connection) : Bool :=
  c.sender == sender && c.signal == sig.name

/-- Run the slots of the given connections, in order. -/
def runSlots (sig : Signal) (cs : List Connection) (w : World) : World :=
  cs.foldl (fun acc c => runSlot c.receiver c.slot sig acc) w

/-- Delivery of a signal: every slot connected to it runs, in connection order. -/
def deliver (sender : Obj) (sig : Signal) (w : World) : World :=
  runSlots sig (w.connections.filter (Connection.listens sender sig)) w

/-- Handler `DirectusTexture::dragEnterEvent`. -/
def dragEnterEvent (w : World) (event : QDragEnterEvent) : World × QDragEnterEvent :=
  if !event.mimeData.hasText then
    (w, event.ignore)
  else
    let event := event.setDropAction DropAction.MoveAction
    (w, event.accept)

/-- Handler `DirectusTexture::dragMoveEvent`. -/
def dragMoveEvent (w : World) (event : QDragMoveEvent) : World × QDragMoveEvent :=
  if !event.mimeData.hasText then
    (w, event.ignore)
  else
    let event := event.setDropAction DropAction.MoveAction
    (w, event.accept)

/-- Call `socket->SetMaterialTexture(gameObject, textureType, path)`. -/
def SetMaterialTexture (s : Socket) (g : GameObject) (t : TextureType) (path : String)
    (w : World) : World :=
  { w with calls := w.calls ++ [Call.SetMaterialTexture s g t path] }

/-- Call `core->Update()`. -/
def Update (c : DirectusCore) (w : World) : World :=
  { w with calls := w.calls ++ [Call.Update c] }

/-- Handler `DirectusTexture::dropEvent`.  The two engine getters are outside
this file and are parameters: what the inspector reports as inspected game
object (`none` is the null pointer) and the socket of a core.  The result is
`none` where the source dereferences a null `m_inspector` or `m_directusCore`,
or reads `m_textureType` before it was assigned. -/
def dropEvent (GetInspectedGameObject : DirectusInspector → Option GameObject)
    (GetEngineSocket : DirectusCore → Socket) (w : World) (event : QDropEvent) :
    Option (World × QDropEvent) :=
  match w.self.m_inspector with
  | none => none
  | some inspector =>
    let gameObject := GetInspectedGameObject inspector
    if gameObject.isNone || !event.mimeData.hasText then
      some (w, event.ignore)
    else
      let event := event.setDropAction DropAction.MoveAction
      let event := event.accept
      let mime := event.mimeData
      let imagePath := mime.text.toStdString
      let w := LoadImageAsync imagePath w
      match w.self.m_directusCore, gameObject, w.self.m_textureType with
      | some core, some g, some textureType =>
        let w := SetMaterialTexture (GetEngineSocket core) g textureType imagePath w
        let w := Update core w
        some (w, event)
      | _, _, _ => none

/-! ## Vocabulary of the statements -/

/-- The thread object that `LoadImageAsync` leaves behind. -/
def startedThread : QThread :=
  { started := some Priority.HighestPriority, quitRequested := false,
    deleteLaterRequested := false }

/-- The loader object that `LoadImageAsync filePath` leaves behind, in thread `t`. -/
def preparedLoader (filePath : String) (t : Nat) : DirectusAssetLoader :=
  { thread := some t, prepared := some (filePath, 20, 20), loadTextureCalls := 0,
    deleteLaterRequested := false }

/-- The five connections made by `LoadImageAsync` for thread `t` and loader `l`. -/
def wiring (t l : Nat) : List Connection :=
  [ ⟨Obj.thread t, SignalName.started, Obj.loader l, SlotName.LoadTexture⟩,
    ⟨Obj.loader l, SignalName.ImageReady, Obj.this, SlotName.setPixmap⟩,
    ⟨Obj.loader l, SignalName.Finished, Obj.thread t, SlotName.quit⟩,
    ⟨Obj.loader l, SignalName.Finished, Obj.loader l, SlotName.deleteLater⟩,
    ⟨Obj.thread t, SignalName.finished, Obj.thread t, SlotName.deleteLater⟩ ]

/-- The calls made by `LoadImageAsync filePath` for thread `t` and loader `l`. -/
def loadCalls (filePath : String) (t l : Nat) : List Call :=
  [ Call.newQThread t, Call.newDirectusAssetLoader l, Call.moveToThread l t,
    Call.PrepareForTexture l filePath 20 20 ] ++
  (wiring t l).map Call.connect ++ [ Call.start t Priority.HighestPriority ]

/-- A background load of `filePath` was started between `w` and `w2`: one new
thread, started, and one new loader, living in that thread and prepared for
`filePath`, wired to each other and to the widget. -/
def StartsLoad (filePath : String) (w w2 : World) : Prop :=
  w2.threads = w.threads ++ [startedThread] ∧
  w2.loaders = w.loaders ++ [preparedLoader filePath w.threads.length] ∧
  w2.connections = w.connections ++ wiring w.threads.length w.loaders.length

/-- No toolkit object was created, changed or connected between `w` and `w2`. -/
def StartsNoLoad (w w2 : World) : Prop :=
  w2.threads = w.threads ∧ w2.loaders = w.loaders ∧ w2.connections = w.connections

instance (filePath : String) (w w2 : World) : Decidable (StartsLoad filePath w w2) := by
  unfold StartsLoad
  infer_instance

instance (w w2 : World) : Decidable (StartsNoLoad w w2) := by
  unfold StartsNoLoad
  infer_instance

/-- Number of `thread->start(...)` calls made so far. -/
def startCount (w : World) : Nat :=
  w.calls.countP (fun c => match c with
    | Call.start _ _ => true
    | _ => false)

/-- Does the element at position `i` exist and carry the flag? -/
def flagAt {α : Type} (flag : α → Bool) (xs : List α) (i : Nat) : Bool :=
  match xs[i]? with
  | some x => flag x
  | none => false

/-- Has `deleteLater` run on thread `t`? -/
def threadScheduledForDeletion (w : World) (t : Nat) : Bool :=
  flagAt QThread.deleteLaterRequested w.threads t

/-- Has `quit` run on thread `t`? -/
def threadQuitRequested (w : World) (t : Nat) : Bool :=
  flagAt QThread.quitRequested w.threads t

/-- Has `deleteLater` run on loader `l`? -/
def loaderScheduledForDeletion (w : World) (l : Nat) : Bool :=
  flagAt DirectusAssetLoader.deleteLaterRequested w.loaders l

/-- Has `LoadTexture` run on loader `l`? -/
def loaderLoadRequested (w : World) (l : Nat) : Bool :=
  flagAt (fun x => decide (0 < x.loadTextureCalls)) w.loaders l

/-- State of the members after `Initialize(core, inspector, t)` with non-null
`core` and `inspector`.  No other function of the file assigns these members. -/
def Initialized (core : DirectusCore) (inspector : DirectusInspector) (t : TextureType)
    (w : World) : Prop :=
  w.self.m_directusCore = some core ∧ w.self.m_inspector = some inspector ∧
    w.self.m_textureType = some t

/-- A drop event as the toolkit hands it over: proposed action `CopyAction`,
not accepted, nothing called on it yet. -/
def textEvent (hasText : Bool) (text : String) : QDropEvent :=
  { mimeData := { hasText := hasText, text := ⟨text⟩ }
    dropAction := DropAction.CopyAction
    accepted := false
    calls := [] }

/-- An inspector that reports the game object at address 7. -/
def inspecting : DirectusInspector → Option GameObject := fun _ => some ⟨7⟩

/-- An inspector that reports no game object. -/
def inspectingNothing : DirectusInspector → Option GameObject := fun _ => none

/-- A core whose socket lives at the address after its own. -/
def socketOf : DirectusCore → Socket := fun c => ⟨c.addr + 1⟩

/-- A freshly constructed widget after `Initialize(core at 1, inspector at 2, type 3)`. -/
def freshWidget : World :=
  Initialize (some ⟨1⟩) (some ⟨2⟩) ⟨3⟩ construct

/-- The world after dropping `text` while the game object at 7 is inspected
(the world itself when the handler has no defined behaviour). -/
def afterDrop (text : String) (w : World) : World :=
  match dropEvent inspecting socketOf w (textEvent true text) with
  | some r => r.1
  | none => w

/-- The world after `LoadImageAsync p` and delivery of the new thread's `started`. -/
def afterStarted (p : String) (w : World) : World :=
  deliver (Obj.thread w.threads.length) Signal.started (LoadImageAsync p w)

/-- The world after `LoadImageAsync p` and delivery of the new loader's `Finished`. -/
def afterLoaderFinished (p : String) (w : World) : World :=
  deliver (Obj.loader w.loaders.length) Signal.Finished (LoadImageAsync p w)

/-- The world after `LoadImageAsync p`, delivery of the new loader's `Finished`
and then of the new thread's `finished`. -/
def afterThreadFinished (p : String) (w : World) : World :=
  deliver (Obj.thread w.threads.length) Signal.finished (afterLoaderFinished p w)

/-- Two loads in a row on the constructed widget: `a.png` (loader 0), then
`b.png` (loader 1). -/
def twoLoads : World :=
  LoadImageAsync "b.png" (LoadImageAsync "a.png" construct)

/-- The connection from loader `l` into the widget's `setPixmap`. -/
def imageReadyConnection (l : Nat) : Connection :=
  ⟨Obj.loader l, SignalName.ImageReady, Obj.this, SlotName.setPixmap⟩

/-- Delivery of several signals, first to last. -/
def deliverAll (ds : List (Obj × Signal)) (w : World) : World :=
  ds.foldl (fun acc d => deliver d.1 d.2 acc) w

/-! ## Auxiliary facts -/

theorem modifyAt_length {α : Type} (f : α → α) (i : Nat) (xs : List α) :
    (modifyAt f i xs).length = xs.length := by
  induction xs generalizing i with
  | nil => simp [modifyAt]
  | cons x xs ih =>
    cases i with
    | zero => simp [modifyAt]
    | succ n => simp [modifyAt, ih]

theorem modifyAt_append_length {α : Type} (f : α → α) (xs : List α) (y : α) (ys : List α) :
    modifyAt f xs.length (xs ++ y :: ys) = xs ++ f y :: ys := by
  induction xs with
  | nil => rfl
  | cons x xs ih => simp [modifyAt, ih]

theorem modifyAt_getElem? {α : Type} (f : α → α) (i j : Nat) (xs : List α) :
    (modifyAt f i xs)[j]? = if i = j then xs[j]?.map f else xs[j]? := by
  induction xs generalizing i j with
  | nil => simp [modifyAt]
  | cons x xs ih =>
    cases i with
    | zero =>
      cases j with
      | zero => simp [modifyAt]
      | succ m => simp [modifyAt]
    | succ n =>
      cases j with
      | zero => simp [modifyAt]
      | succ m => simp [modifyAt, ih]

theorem LoadImageAsync_same (filePath : String) (w : World)
    (h : w.self.m_currentFilePath = filePath) : LoadImageAsync filePath w = w := by
  simp [LoadImageAsync, h]

theorem LoadImageAsync_fresh (filePath : String) (w : World)
    (h : w.self.m_currentFilePath ≠ filePath) :
    LoadImageAsync filePath w =
      { self := { w.self with m_currentFilePath := filePath }
        threads := w.threads ++ [startedThread]
        loaders := w.loaders ++ [preparedLoader filePath w.threads.length]
        connections := w.connections ++ wiring w.threads.length w.loaders.length
        calls := w.calls ++ loadCalls filePath w.threads.length w.loaders.length } := by
  simp [LoadImageAsync, h, newQThread, newDirectusAssetLoader, moveToThread, PrepareForTexture,
    connect, start, modifyAt_append_length, startedThread, preparedLoader, wiring, loadCalls]

/-! ### One slot -/

theorem runSlot_connections (r : Obj) (s : SlotName) (sig : Signal) (w : World) :
    (runSlot r s sig w).connections = w.connections := by
  unfold runSlot
  split <;> rfl

theorem runSlot_calls (r : Obj) (s : SlotName) (sig : Signal) (w : World) :
    (runSlot r s sig w).calls = w.calls := by
  unfold runSlot
  split <;> rfl

theorem runSlot_threads_length (r : Obj) (s : SlotName) (sig : Signal) (w : World) :
    (runSlot r s sig w).threads.length = w.threads.length := by
  unfold runSlot
  split <;> simp [modifyAt_length]

theorem runSlot_loaders_length (r : Obj) (s : SlotName) (sig : Signal) (w : World) :
    (runSlot r s sig w).loaders.length = w.loaders.length := by
  unfold runSlot
  split <;> simp [modifyAt_length]

theorem runSlot_self (r : Obj) (s : SlotName) (sig : Signal) (w : World) :
    (runSlot r s sig w).self = { w.self with pixmap := (runSlot r s sig w).self.pixmap } := by
  unfold runSlot
  split <;> rfl

theorem runSlot_pixmap_of_ne (r : Obj) (s : SlotName) (sig : Signal) (w : World)
    (h : sig.name ≠ SignalName.ImageReady) :
    (runSlot r s sig w).self.pixmap = w.self.pixmap := by
  unfold runSlot
  split <;> first | rfl | simp [Signal.name] at h

theorem runSlot_pixmap_imageReady (r : Obj) (s : SlotName) (px : QPixmap) (w : World) :
    (runSlot r s (Signal.ImageReady px) w).self.pixmap =
      if r = Obj.this ∧ s = SlotName.setPixmap then some px else w.self.pixmap := by
  cases r <;> cases s <;> simp [runSlot]

theorem flagAt_modifyAt {α : Type} (flag : α → Bool) (f : α → α)
    (hf : ∀ x, flag x = true → flag (f x) = true) (i j : Nat) (xs : List α)
    (h : flagAt flag xs j = true) : flagAt flag (modifyAt f i xs) j = true := by
  unfold flagAt at *
  rw [modifyAt_getElem?]
  by_cases hij : i = j
  · rw [if_pos hij]
    cases hx : xs[j]? with
    | none => simp [hx] at h
    | some x =>
      simp only [hx] at h
      simpa using hf x h
  · rw [if_neg hij]
    exact h

theorem flagAt_modifyAt_self {α : Type} (flag : α → Bool) (f : α → α)
    (hf : ∀ x, flag (f x) = true) (i : Nat) (xs : List α) (h : i < xs.length) :
    flagAt flag (modifyAt f i xs) i = true := by
  unfold flagAt
  rw [modifyAt_getElem?, if_pos rfl, List.getElem?_eq_getElem h]
  simpa using hf _

theorem runSlot_threadScheduled (r : Obj) (s : SlotName) (sig : Signal) (w : World) (t : Nat)
    (h : threadScheduledForDeletion w t = true) :
    threadScheduledForDeletion (runSlot r s sig w) t = true := by
  unfold threadScheduledForDeletion at *
  cases r <;> cases s <;> cases sig <;> simp only [runSlot] <;>
    first
      | exact h
      | exact flagAt_modifyAt _ _ (fun _ hx => by simp_all) _ _ _ h

theorem runSlot_loaderScheduled (r : Obj) (s : SlotName) (sig : Signal) (w : World) (l : Nat)
    (h : loaderScheduledForDeletion w l = true) :
    loaderScheduledForDeletion (runSlot r s sig w) l = true := by
  unfold loaderScheduledForDeletion at *
  cases r <;> cases s <;> cases sig <;> simp only [runSlot] <;>
    first
      | exact h
      | exact flagAt_modifyAt _ _ (fun _ hx => by simp_all) _ _ _ h

theorem runSlot_threadQuit (r : Obj) (s : SlotName) (sig : Signal) (w : World) (t : Nat)
    (h : threadQuitRequested w t = true) :
    threadQuitRequested (runSlot r s sig w) t = true := by
  unfold threadQuitRequested at *
  cases r <;> cases s <;> cases sig <;> simp only [runSlot] <;>
    first
      | exact h
      | exact flagAt_modifyAt _ _ (fun _ hx => by simp_all) _ _ _ h

theorem runSlot_loaderLoadRequested (r : Obj) (s : SlotName) (sig : Signal) (w : World) (l : Nat)
    (h : loaderLoadRequested w l = true) :
    loaderLoadRequested (runSlot r s sig w) l = true := by
  unfold loaderLoadRequested at *
  cases r <;> cases s <;> cases sig <;> simp only [runSlot] <;>
    first
      | exact h
      | exact flagAt_modifyAt _ _ (fun _ hx => by simp_all) _ _ _ h

/-! ### Delivery of a signal -/

theorem runSlots_nil (sig : Signal) (w : World) : runSlots sig [] w = w := rfl

theorem runSlots_cons (sig : Signal) (c : Connection) (cs : List Connection) (w : World) :
    runSlots sig (c :: cs) w = runSlots sig cs (runSlot c.receiver c.slot sig w) := rfl

theorem runSlots_append (sig : Signal) (cs ds : List Connection) (w : World) :
    runSlots sig (cs ++ ds) w = runSlots sig ds (runSlots sig cs w) := by
  simp [runSlots, List.foldl_append]

theorem runSlots_connections (sig : Signal) (cs : List Connection) (w : World) :
    (runSlots sig cs w).connections = w.connections := by
  induction cs generalizing w with
  | nil => rfl
  | cons c cs ih => rw [runSlots_cons, ih, runSlot_connections]

theorem runSlots_calls (sig : Signal) (cs : List Connection) (w : World) :
    (runSlots sig cs w).calls = w.calls := by
  induction cs generalizing w with
  | nil => rfl
  | cons c cs ih => rw [runSlots_cons, ih, runSlot_calls]

theorem runSlots_threads_length (sig : Signal) (cs : List Connection) (w : World) :
    (runSlots sig cs w).threads.length = w.threads.length := by
  induction cs generalizing w with
  | nil => rfl
  | cons c cs ih => rw [runSlots_cons, ih, runSlot_threads_length]

theorem runSlots_loaders_length (sig : Signal) (cs : List Connection) (w : World) :
    (runSlots sig cs w).loaders.length = w.loaders.length := by
  induction cs generalizing w with
  | nil => rfl
  | cons c cs ih => rw [runSlots_cons, ih, runSlot_loaders_length]

theorem runSlots_self (sig : Signal) (cs : List Connection) (w : World) :
    (runSlots sig cs w).self = { w.self with pixmap := (runSlots sig cs w).self.pixmap } := by
  induction cs generalizing w with
  | nil => rfl
  | cons c cs ih =>
    rw [runSlots_cons, ih, runSlot_self]

theorem runSlots_pixmap_of_ne (sig : Signal) (cs : List Connection) (w : World)
    (h : sig.name ≠ SignalName.ImageReady) :
    (runSlots sig cs w).self.pixmap = w.self.pixmap := by
  induction cs generalizing w with
  | nil => rfl
  | cons c cs ih => rw [runSlots_cons, ih, runSlot_pixmap_of_ne _ _ _ _ h]

theorem runSlots_pixmap_imageReady (px : QPixmap) (cs : List Connection) (w : World) :
    (runSlots (Signal.ImageReady px) cs w).self.pixmap =
      if cs.any (fun c => decide (c.receiver = Obj.this ∧ c.slot = SlotName.setPixmap)) = true
      then some px else w.self.pixmap := by
  induction cs generalizing w with
  | nil => rfl
  | cons c cs ih =>
    rw [runSlots_cons, ih, runSlot_pixmap_imageReady]
    by_cases hc : c.receiver = Obj.this ∧ c.slot = SlotName.setPixmap
    · simp [hc]
    · simp [hc]

theorem runSlots_threadScheduled (sig : Signal) (cs : List Connection) (w : World) (t : Nat)
    (h : threadScheduledForDeletion w t = true) :
    threadScheduledForDeletion (runSlots sig cs w) t = true := by
  induction cs generalizing w with
  | nil => exact h
  | cons c cs ih => exact ih _ (runSlot_threadScheduled _ _ _ _ _ h)

theorem runSlots_loaderScheduled (sig : Signal) (cs : List Connection) (w : World) (l : Nat)
    (h : loaderScheduledForDeletion w l = true) :
    loaderScheduledForDeletion (runSlots sig cs w) l = true := by
  induction cs generalizing w with
  | nil => exact h
  | cons c cs ih => exact ih _ (runSlot_loaderScheduled _ _ _ _ _ h)

theorem runSlots_threadQuit (sig : Signal) (cs : List Connection) (w : World) (t : Nat)
    (h : threadQuitRequested w t = true) :
    threadQuitRequested (runSlots sig cs w) t = true := by
  induction cs generalizing w with
  | nil => exact h
  | cons c cs ih => exact ih _ (runSlot_threadQuit _ _ _ _ _ h)

theorem deliver_connections (o : Obj) (sig : Signal) (w : World) :
    (deliver o sig w).connections = w.connections :=
  runSlots_connections _ _ _

theorem deliver_calls (o : Obj) (sig : Signal) (w : World) :
    (deliver o sig w).calls = w.calls :=
  runSlots_calls _ _ _

theorem deliver_threads_length (o : Obj) (sig : Signal) (w : World) :
    (deliver o sig w).threads.length = w.threads.length :=
  runSlots_threads_length _ _ _

theorem deliver_loaders_length (o : Obj) (sig : Signal) (w : World) :
    (deliver o sig w).loaders.length = w.loaders.length :=
  runSlots_loaders_length _ _ _

theorem deliver_self (o : Obj) (sig : Signal) (w : World) :
    (deliver o sig w).self = { w.self with pixmap := (deliver o sig w).self.pixmap } :=
  runSlots_self _ _ _

theorem deliver_currentFilePath (o : Obj) (sig : Signal) (w : World) :
    (deliver o sig w).self.m_currentFilePath = w.self.m_currentFilePath := by
  rw [deliver_self]

theorem deliver_pixmap_of_ne (o : Obj) (sig : Signal) (w : World)
    (h : sig.name ≠ SignalName.ImageReady) :
    (deliver o sig w).self.pixmap = w.self.pixmap :=
  runSlots_pixmap_of_ne _ _ _ h

theorem deliver_self_of_ne (o : Obj) (sig : Signal) (w : World)
    (h : sig.name ≠ SignalName.ImageReady) : (deliver o sig w).self = w.self := by
  rw [deliver_self, deliver_pixmap_of_ne _ _ _ h]

theorem deliver_pixmap_cases (o : Obj) (px : QPixmap) (w : World) :
    (deliver o (Signal.ImageReady px) w).self.pixmap = some px ∨
      (deliver o (Signal.ImageReady px) w).self.pixmap = w.self.pixmap := by
  unfold deliver
  rw [runSlots_pixmap_imageReady]
  split
  · exact Or.inl rfl
  · exact Or.inr rfl

theorem deliver_pixmap_of_mem (l : Nat) (px : QPixmap) (w : World)
    (h : (⟨Obj.loader l, SignalName.ImageReady, Obj.this, SlotName.setPixmap⟩ : Connection) ∈
      w.connections) :
    (deliver (Obj.loader l) (Signal.ImageReady px) w).self.pixmap = some px := by
  unfold deliver
  rw [runSlots_pixmap_imageReady, if_pos]
  rw [List.any_eq_true]
  refine ⟨_, List.mem_filter.mpr ⟨h, ?_⟩, ?_⟩
  · simp [Connection.listens, Signal.name]
  · simp

theorem deliverAll_currentFilePath (ds : List (Obj × Signal)) (w : World) :
    (deliverAll ds w).self.m_currentFilePath = w.self.m_currentFilePath := by
  induction ds generalizing w with
  | nil => rfl
  | cons d ds ih =>
    show (deliverAll ds (deliver d.1 d.2 w)).self.m_currentFilePath = _
    rw [ih, deliver_currentFilePath]

/-! ### The members written by `Initialize` -/

theorem Initialized_Initialize (core : DirectusCore) (inspector : DirectusInspector)
    (t : TextureType) (w : World) :
    Initialized core inspector t (Initialize (some core) (some inspector) t w) :=
  ⟨rfl, rfl, rfl⟩

theorem LoadImageAsync_self (filePath : String) (w : World) :
    (LoadImageAsync filePath w).self = { w.self with m_currentFilePath := filePath } := by
  by_cases h : w.self.m_currentFilePath = filePath
  · rw [LoadImageAsync_same _ _ h, ← h]
  · rw [LoadImageAsync_fresh _ _ h]

theorem Initialized_LoadImageAsync (core : DirectusCore) (inspector : DirectusInspector)
    (t : TextureType) (filePath : String) (w : World) (h : Initialized core inspector t w) :
    Initialized core inspector t (LoadImageAsync filePath w) := by
  unfold Initialized
  rw [LoadImageAsync_self]
  exact h

theorem Initialized_deliver (core : DirectusCore) (inspector : DirectusInspector)
    (t : TextureType) (o : Obj) (sig : Signal) (w : World) (h : Initialized core inspector t w) :
    Initialized core inspector t (deliver o sig w) := by
  unfold Initialized
  rw [deliver_self]
  exact h

theorem not_engineCall_loadCalls (filePath : String) (t l : Nat) :
    (loadCalls filePath t l).all (fun c => !c.isEngineCall) = true := by
  simp [loadCalls, wiring, Call.isEngineCall]

theorem dropEvent_accepted (GetInspectedGameObject : DirectusInspector → Option GameObject)
    (GetEngineSocket : DirectusCore → Socket) (w : World) (event : QDropEvent)
    (core : DirectusCore) (inspector : DirectusInspector) (t : TextureType) (g : GameObject)
    (hinit : Initialized core inspector t w)
    (hg : GetInspectedGameObject inspector = some g)
    (htext : event.mimeData.hasText = true) :
    dropEvent GetInspectedGameObject GetEngineSocket w event =
      some
        ({ LoadImageAsync event.mimeData.text.toStdString w with
            calls := (LoadImageAsync event.mimeData.text.toStdString w).calls ++
              [Call.SetMaterialTexture (GetEngineSocket core) g t
                  event.mimeData.text.toStdString,
                Call.Update core] },
          { event with
            dropAction := DropAction.MoveAction
            accepted := true
            calls := event.calls ++
              [EventCall.setDropAction DropAction.MoveAction, EventCall.accept] }) := by
  obtain ⟨hc, hi, ht⟩ := hinit
  have hs := LoadImageAsync_self event.mimeData.text.toStdString w
  simp [dropEvent, hi, hg, htext, hs, hc, ht, SetMaterialTexture, Update,
    QDropEvent.setDropAction, QDropEvent.accept]

theorem dropEvent_ignored (GetInspectedGameObject : DirectusInspector → Option GameObject)
    (GetEngineSocket : DirectusCore → Socket) (w : World) (event : QDropEvent)
    (inspector : DirectusInspector)
    (hinsp : w.self.m_inspector = some inspector)
    (h : GetInspectedGameObject inspector = none ∨ event.mimeData.hasText = false) :
    dropEvent GetInspectedGameObject GetEngineSocket w event = some (w, event.ignore) := by
  rcases h with h | h <;> simp [dropEvent, hinsp, h]

theorem startCount_LoadImageAsync_fresh (filePath : String) (w : World)
    (h : w.self.m_currentFilePath ≠ filePath) :
    startCount (LoadImageAsync filePath w) = startCount w + 1 := by
  rw [LoadImageAsync_fresh _ _ h]
  simp [startCount, loadCalls, wiring, List.countP_append, List.countP_cons]

theorem startCount_engineCalls (w : World) (s : Socket) (g : GameObject) (t : TextureType)
    (path : String) (c : DirectusCore) :
    startCount { w with calls := w.calls ++ [Call.SetMaterialTexture s g t path, Call.Update c] } =
      startCount w := by
  simp [startCount, List.countP_append, List.countP_cons]

/-! ### Delivery to the objects made by `LoadImageAsync` -/

theorem deliver_split (o : Obj) (sig : Signal) (w : World) (old new : List Connection)
    (h : w.connections = old ++ new) :
    deliver o sig w =
      runSlots sig (new.filter (Connection.listens o sig))
        (runSlots sig (old.filter (Connection.listens o sig)) w) := by
  unfold deliver
  rw [h, List.filter_append, runSlots_append]

theorem runSlot_quit_sets (t : Nat) (sig : Signal) (w : World) (ht : t < w.threads.length) :
    threadQuitRequested (runSlot (Obj.thread t) SlotName.quit sig w) t = true := by
  cases sig <;> exact flagAt_modifyAt_self _ _ (fun _ => rfl) _ _ ht

theorem runSlot_deleteLater_thread_sets (t : Nat) (sig : Signal) (w : World)
    (ht : t < w.threads.length) :
    threadScheduledForDeletion (runSlot (Obj.thread t) SlotName.deleteLater sig w) t = true := by
  cases sig <;> exact flagAt_modifyAt_self _ _ (fun _ => rfl) _ _ ht

theorem runSlot_deleteLater_loader_sets (l : Nat) (sig : Signal) (w : World)
    (hl : l < w.loaders.length) :
    loaderScheduledForDeletion (runSlot (Obj.loader l) SlotName.deleteLater sig w) l = true := by
  cases sig <;> exact flagAt_modifyAt_self _ _ (fun _ => rfl) _ _ hl

theorem runSlot_loadTexture_sets (l : Nat) (sig : Signal) (w : World)
    (hl : l < w.loaders.length) :
    loaderLoadRequested (runSlot (Obj.loader l) SlotName.LoadTexture sig w) l = true := by
  cases sig <;> exact flagAt_modifyAt_self _ _ (fun _ => by simp) _ _ hl

theorem deliver_loaderScheduled (o : Obj) (sig : Signal) (w : World) (l : Nat)
    (h : loaderScheduledForDeletion w l = true) :
    loaderScheduledForDeletion (deliver o sig w) l = true :=
  runSlots_loaderScheduled _ _ _ _ h

theorem LoadImageAsync_connections (p : String) (w : World) (h : w.self.m_currentFilePath ≠ p) :
    (LoadImageAsync p w).connections =
      w.connections ++ wiring w.threads.length w.loaders.length := by
  rw [LoadImageAsync_fresh _ _ h]

theorem LoadImageAsync_threads_length (p : String) (w : World)
    (h : w.self.m_currentFilePath ≠ p) :
    (LoadImageAsync p w).threads.length = w.threads.length + 1 := by
  simp [LoadImageAsync_fresh _ _ h]

theorem LoadImageAsync_loaders_length (p : String) (w : World)
    (h : w.self.m_currentFilePath ≠ p) :
    (LoadImageAsync p w).loaders.length = w.loaders.length + 1 := by
  simp [LoadImageAsync_fresh _ _ h]

theorem started_runs_LoadTexture (p : String) (w : World) (h : w.self.m_currentFilePath ≠ p) :
    loaderLoadRequested (afterStarted p w) w.loaders.length = true := by
  unfold afterStarted
  rw [deliver_split _ _ _ _ _ (LoadImageAsync_connections p w h)]
  have hf : (wiring w.threads.length w.loaders.length).filter
      (Connection.listens (Obj.thread w.threads.length) Signal.started) =
      [⟨Obj.thread w.threads.length, SignalName.started, Obj.loader w.loaders.length,
        SlotName.LoadTexture⟩] := by
    simp [wiring, Connection.listens, Signal.name, List.filter_cons]
  rw [hf, runSlots_cons, runSlots_nil]
  apply runSlot_loadTexture_sets
  rw [runSlots_loaders_length, LoadImageAsync_loaders_length p w h]
  exact Nat.lt_succ_self _

theorem finished_filter (t l : Nat) :
    (wiring t l).filter (Connection.listens (Obj.loader l) Signal.Finished) =
      [⟨Obj.loader l, SignalName.Finished, Obj.thread t, SlotName.quit⟩,
        ⟨Obj.loader l, SignalName.Finished, Obj.loader l, SlotName.deleteLater⟩] := by
  simp [wiring, Connection.listens, Signal.name, List.filter_cons]

theorem Finished_requests_quit (p : String) (w : World) (h : w.self.m_currentFilePath ≠ p) :
    threadQuitRequested (afterLoaderFinished p w) w.threads.length = true := by
  unfold afterLoaderFinished
  rw [deliver_split _ _ _ _ _ (LoadImageAsync_connections p w h), finished_filter,
    runSlots_cons, runSlots_cons, runSlots_nil]
  apply runSlot_threadQuit
  apply runSlot_quit_sets
  rw [runSlots_threads_length, LoadImageAsync_threads_length p w h]
  exact Nat.lt_succ_self _

theorem Finished_schedules_loader (p : String) (w : World) (h : w.self.m_currentFilePath ≠ p) :
    loaderScheduledForDeletion (afterLoaderFinished p w) w.loaders.length = true := by
  unfold afterLoaderFinished
  rw [deliver_split _ _ _ _ _ (LoadImageAsync_connections p w h), finished_filter,
    runSlots_cons, runSlots_cons, runSlots_nil]
  apply runSlot_deleteLater_loader_sets
  rw [runSlot_loaders_length, runSlots_loaders_length, LoadImageAsync_loaders_length p w h]
  exact Nat.lt_succ_self _

theorem finished_schedules_thread (p : String) (w : World) (h : w.self.m_currentFilePath ≠ p) :
    threadScheduledForDeletion (afterThreadFinished p w) w.threads.length = true := by
  unfold afterThreadFinished
  have hc : (afterLoaderFinished p w).connections =
      w.connections ++ wiring w.threads.length w.loaders.length := by
    unfold afterLoaderFinished
    rw [deliver_connections, LoadImageAsync_connections p w h]
  have hf : (wiring w.threads.length w.loaders.length).filter
      (Connection.listens (Obj.thread w.threads.length) Signal.finished) =
      [⟨Obj.thread w.threads.length, SignalName.finished, Obj.thread w.threads.length,
        SlotName.deleteLater⟩] := by
    simp [wiring, Connection.listens, Signal.name, List.filter_cons]
  rw [deliver_split _ _ _ _ _ hc, hf, runSlots_cons, runSlots_nil]
  apply runSlot_deleteLater_thread_sets
  rw [runSlots_threads_length]
  unfold afterLoaderFinished
  rw [deliver_threads_length, LoadImageAsync_threads_length p w h]
  exact Nat.lt_succ_self _

theorem dropEvent_pixmap (GetInspectedGameObject : DirectusInspector → Option GameObject)
    (GetEngineSocket : DirectusCore → Socket) (w : World) (event : QDropEvent)
    (r : World × QDropEvent)
    (h : dropEvent GetInspectedGameObject GetEngineSocket w event = some r) :
    r.1.self.pixmap = w.self.pixmap := by
  unfold dropEvent at h
  split at h
  · exact absurd h (by simp)
  · simp only at h
    split at h
    · cases h
      rfl
    · split at h
      · cases h
        show (LoadImageAsync _ w).self.pixmap = _
        rw [LoadImageAsync_self]
      · exact absurd h (by simp)

theorem dropEvent_returns (GetInspectedGameObject : DirectusInspector → Option GameObject)
    (GetEngineSocket : DirectusCore → Socket) (w : World) (event : QDropEvent)
    (core : DirectusCore) (inspector : DirectusInspector) (t : TextureType)
    (hinit : Initialized core inspector t w) :
    (dropEvent GetInspectedGameObject GetEngineSocket w event).isSome = true := by
  cases hg : GetInspectedGameObject inspector with
  | none => rw [dropEvent_ignored _ _ _ _ _ hinit.2.1 (Or.inl hg)]; rfl
  | some g =>
    cases ht : event.mimeData.hasText with
    | false => rw [dropEvent_ignored _ _ _ _ _ hinit.2.1 (Or.inr ht)]; rfl
    | true => rw [dropEvent_accepted _ _ _ _ _ _ _ _ hinit hg ht]; rfl

theorem imageReadyConnection_mem (p : String) (w : World) (h : w.self.m_currentFilePath ≠ p) :
    imageReadyConnection w.loaders.length ∈ (LoadImageAsync p w).connections := by
  rw [LoadImageAsync_connections p w h]
  simp [wiring, imageReadyConnection]

theorem connections_subset_LoadImageAsync (p : String) (w : World) (c : Connection)
    (hc : c ∈ w.connections) : c ∈ (LoadImageAsync p w).connections := by
  by_cases h : w.self.m_currentFilePath = p
  · rw [LoadImageAsync_same _ _ h]
    exact hc
  · rw [LoadImageAsync_connections p w h]
    exact List.mem_append_left _ hc

theorem deliver_imageReady_pixmap (l : Nat) (px : QPixmap) (w : World)
    (h : imageReadyConnection l ∈ w.connections) :
    (deliver (Obj.loader l) (Signal.ImageReady px) w).self.pixmap = some px :=
  deliver_pixmap_of_mem l px w h

/-! ## The claims -/

/-- C1: a drop whose mime data has text, delivered while the inspector reports
a game object `g` and the members hold what `Initialize(core, inspector, t)`
stored, returns with the event accepted and its drop action `MoveAction`.  The
calls it adds to the log are those of `LoadImageAsync` (none of them an engine
call), then one `SetMaterialTexture(g, t, text)` on the core's socket, then one
`Update` on the core, and nothing after. -/
theorem dropEvent_accepts_and_assigns
    (GetInspectedGameObject : DirectusInspector → Option GameObject)
    (GetEngineSocket : DirectusCore → Socket) (w : World) (event : QDropEvent)
    (core : DirectusCore) (inspector : DirectusInspector) (t : TextureType) (g : GameObject)
    (hinit : Initialized core inspector t w)
    (hg : GetInspectedGameObject inspector = some g)
    (htext : event.mimeData.hasText = true) :
    ∃ w2 e2, dropEvent GetInspectedGameObject GetEngineSocket w event = some (w2, e2) ∧
      e2.accepted = true ∧ e2.dropAction = DropAction.MoveAction ∧
      e2.calls = event.calls ++
        [EventCall.setDropAction DropAction.MoveAction, EventCall.accept] ∧
      (∃ mid, (LoadImageAsync event.mimeData.text.toStdString w).calls = w.calls ++ mid ∧
        mid.all (fun c => !c.isEngineCall) = true ∧
        w2.calls = w.calls ++ mid ++
          [Call.SetMaterialTexture (GetEngineSocket core) g t event.mimeData.text.toStdString,
            Call.Update core]) ∧
      w2.self = (LoadImageAsync event.mimeData.text.toStdString w).self ∧
      w2.threads = (LoadImageAsync event.mimeData.text.toStdString w).threads ∧
      w2.loaders = (LoadImageAsync event.mimeData.text.toStdString w).loaders ∧
      w2.connections = (LoadImageAsync event.mimeData.text.toStdString w).connections := by
  refine ⟨_, _, dropEvent_accepted _ _ _ _ _ _ _ _ hinit hg htext, rfl, rfl, rfl, ?_,
    rfl, rfl, rfl, rfl⟩
  by_cases h : w.self.m_currentFilePath = event.mimeData.text.toStdString
  · refine ⟨[], ?_, rfl, ?_⟩
    · rw [LoadImageAsync_same _ _ h, List.append_nil]
    · simp [LoadImageAsync_same _ _ h]
  · refine ⟨loadCalls event.mimeData.text.toStdString w.threads.length w.loaders.length,
      ?_, not_engineCall_loadCalls _ _ _, ?_⟩
    · rw [LoadImageAsync_fresh _ _ h]
    · simp [LoadImageAsync_fresh _ _ h]

/-- C1 at a concrete drop: the text `a.png` on the initialised fresh widget. -/
theorem dropEvent_accepts_and_assigns_witness :
    Initialized ⟨1⟩ ⟨2⟩ ⟨3⟩ freshWidget ∧ inspecting ⟨2⟩ = some ⟨7⟩ ∧
    (textEvent true "a.png").mimeData.hasText = true ∧
    ∃ w2 e2, dropEvent inspecting socketOf freshWidget (textEvent true "a.png") = some (w2, e2) ∧
      e2.accepted = true ∧ e2.dropAction = DropAction.MoveAction ∧
      e2.calls = (textEvent true "a.png").calls ++
        [EventCall.setDropAction DropAction.MoveAction, EventCall.accept] ∧
      (∃ mid, (LoadImageAsync (textEvent true "a.png").mimeData.text.toStdString
          freshWidget).calls = freshWidget.calls ++ mid ∧
        mid.all (fun c => !c.isEngineCall) = true ∧
        w2.calls = freshWidget.calls ++ mid ++
          [Call.SetMaterialTexture (socketOf ⟨1⟩) ⟨7⟩ ⟨3⟩
              (textEvent true "a.png").mimeData.text.toStdString,
            Call.Update ⟨1⟩]) ∧
      w2.self = (LoadImageAsync (textEvent true "a.png").mimeData.text.toStdString
        freshWidget).self ∧
      w2.threads = (LoadImageAsync (textEvent true "a.png").mimeData.text.toStdString
        freshWidget).threads ∧
      w2.loaders = (LoadImageAsync (textEvent true "a.png").mimeData.text.toStdString
        freshWidget).loaders ∧
      w2.connections = (LoadImageAsync (textEvent true "a.png").mimeData.text.toStdString
        freshWidget).connections :=
  ⟨Initialized_Initialize _ _ _ _, rfl, rfl,
    dropEvent_accepts_and_assigns inspecting socketOf freshWidget (textEvent true "a.png")
      ⟨1⟩ ⟨2⟩ ⟨3⟩ ⟨7⟩ (Initialized_Initialize _ _ _ _) rfl rfl⟩

/-- C2: with a valid inspector member, a drop delivered while the inspector
reports no game object, or whose mime data has no text, returns with the world
unchanged (no thread, loader or connection is made, no call is logged, so no
`SetMaterialTexture` and no `Update`; `m_currentFilePath` and the pixmap keep
their values) and with the event ignored: accept flag false, only `ignore`
called on it, drop action untouched. -/
theorem dropEvent_ignores
    (GetInspectedGameObject : DirectusInspector → Option GameObject)
    (GetEngineSocket : DirectusCore → Socket) (w : World) (event : QDropEvent)
    (inspector : DirectusInspector)
    (hinsp : w.self.m_inspector = some inspector)
    (h : GetInspectedGameObject inspector = none ∨ event.mimeData.hasText = false) :
    ∃ w2 e2, dropEvent GetInspectedGameObject GetEngineSocket w event = some (w2, e2) ∧
      w2 = w ∧ StartsNoLoad w w2 ∧ w2.calls = w.calls ∧
      w2.self.m_currentFilePath = w.self.m_currentFilePath ∧
      e2.accepted = false ∧ e2.dropAction = event.dropAction ∧
      e2.calls = event.calls ++ [EventCall.ignore] :=
  ⟨w, event.ignore, dropEvent_ignored _ _ _ _ _ hinsp h, rfl, ⟨rfl, rfl, rfl⟩, rfl, rfl, rfl,
    rfl, rfl⟩

/-- C2 at a concrete drop: text `a.png` while nothing is inspected. -/
theorem dropEvent_ignores_witness :
    freshWidget.self.m_inspector = some ⟨2⟩ ∧
    (inspectingNothing ⟨2⟩ = none ∨ (textEvent true "a.png").mimeData.hasText = false) ∧
    ∃ w2 e2, dropEvent inspectingNothing socketOf freshWidget (textEvent true "a.png") =
        some (w2, e2) ∧
      w2 = freshWidget ∧ StartsNoLoad freshWidget w2 ∧ w2.calls = freshWidget.calls ∧
      w2.self.m_currentFilePath = freshWidget.self.m_currentFilePath ∧
      e2.accepted = false ∧ e2.dropAction = (textEvent true "a.png").dropAction ∧
      e2.calls = (textEvent true "a.png").calls ++ [EventCall.ignore] :=
  ⟨rfl, Or.inl rfl,
    dropEvent_ignores inspectingNothing socketOf freshWidget (textEvent true "a.png") ⟨2⟩ rfl
      (Or.inl rfl)⟩

/-- C3, refuted as stated: two accepted drops that start no background load.
The empty string dropped on the initialised fresh widget, and `a.png` dropped a
second time: both events are accepted, and no thread or loader is created. -/
theorem dropEvent_current_path_starts_no_load :
    (∃ r, dropEvent inspecting socketOf freshWidget (textEvent true "") = some r ∧
      r.2.accepted = true ∧ ¬ StartsLoad "" freshWidget r.1 ∧
      r.1.threads = [] ∧ r.1.loaders = []) ∧
    (∃ r, dropEvent inspecting socketOf (afterDrop "a.png" freshWidget)
        (textEvent true "a.png") = some r ∧
      r.2.accepted = true ∧
      ¬ StartsLoad "a.png" (afterDrop "a.png" freshWidget) r.1 ∧
      r.1.threads.length = 1 ∧ r.1.loaders.length = 1 ∧
      (afterDrop "a.png" freshWidget).threads.length = 1) := by
  decide

/-- C3 (amended): an accepted drop hands its path to a background loader
exactly when the path differs from `m_currentFilePath`: then one thread and one
loader prepared for that path are created, wired and started.  When the path
equals `m_currentFilePath` (a repeated drop, or the empty string on a fresh
widget) the drop is still accepted but no thread, loader or connection is
made.  In both cases `m_currentFilePath` is the dropped path afterwards. -/
theorem dropEvent_starts_load_unless_current
    (GetInspectedGameObject : DirectusInspector → Option GameObject)
    (GetEngineSocket : DirectusCore → Socket) (w : World) (event : QDropEvent)
    (core : DirectusCore) (inspector : DirectusInspector) (t : TextureType) (g : GameObject)
    (hinit : Initialized core inspector t w)
    (hg : GetInspectedGameObject inspector = some g)
    (htext : event.mimeData.hasText = true) :
    ∃ w2 e2, dropEvent GetInspectedGameObject GetEngineSocket w event = some (w2, e2) ∧
      e2.accepted = true ∧
      w2.self.m_currentFilePath = event.mimeData.text.toStdString ∧
      (w.self.m_currentFilePath ≠ event.mimeData.text.toStdString →
        StartsLoad event.mimeData.text.toStdString w w2 ∧ startCount w2 = startCount w + 1) ∧
      (w.self.m_currentFilePath = event.mimeData.text.toStdString →
        StartsNoLoad w w2 ∧ startCount w2 = startCount w) := by
  refine ⟨_, _, dropEvent_accepted _ _ _ _ _ _ _ _ hinit hg htext, rfl, ?_, ?_, ?_⟩
  · show (LoadImageAsync _ w).self.m_currentFilePath = _
    rw [LoadImageAsync_self]
  · intro h
    refine ⟨?_, ?_⟩
    · simp [StartsLoad, LoadImageAsync_fresh _ _ h]
    · rw [startCount_engineCalls, startCount_LoadImageAsync_fresh _ _ h]
  · intro h
    refine ⟨?_, ?_⟩
    · simp [StartsNoLoad, LoadImageAsync_same _ _ h]
    · rw [startCount_engineCalls, LoadImageAsync_same _ _ h]

/-- C3 (amended) at a concrete drop: `a.png` on the initialised fresh widget. -/
theorem dropEvent_starts_load_unless_current_witness :
    Initialized ⟨1⟩ ⟨2⟩ ⟨3⟩ freshWidget ∧ inspecting ⟨2⟩ = some ⟨7⟩ ∧
    (textEvent true "a.png").mimeData.hasText = true ∧
    ∃ w2 e2, dropEvent inspecting socketOf freshWidget (textEvent true "a.png") = some (w2, e2) ∧
      e2.accepted = true ∧
      w2.self.m_currentFilePath = (textEvent true "a.png").mimeData.text.toStdString ∧
      (freshWidget.self.m_currentFilePath ≠ (textEvent true "a.png").mimeData.text.toStdString →
        StartsLoad (textEvent true "a.png").mimeData.text.toStdString freshWidget w2 ∧
          startCount w2 = startCount freshWidget + 1) ∧
      (freshWidget.self.m_currentFilePath = (textEvent true "a.png").mimeData.text.toStdString →
        StartsNoLoad freshWidget w2 ∧ startCount w2 = startCount freshWidget) :=
  ⟨Initialized_Initialize _ _ _ _, rfl, rfl,
    dropEvent_starts_load_unless_current inspecting socketOf freshWidget
      (textEvent true "a.png") ⟨1⟩ ⟨2⟩ ⟨3⟩ ⟨7⟩ (Initialized_Initialize _ _ _ _) rfl rfl⟩

/-- C6: after `LoadImageAsync p` the member `m_currentFilePath` is `p`; a call
with `p` equal to `m_currentFilePath` returns the world unchanged (no thread, no
loader, no call); a second call in a row, also after any signals were delivered
in between, changes nothing; and one call starts at most one thread. -/
theorem LoadImageAsync_idempotent (p : String) (w : World) :
    (LoadImageAsync p w).self.m_currentFilePath = p ∧
    (w.self.m_currentFilePath = p → LoadImageAsync p w = w) ∧
    LoadImageAsync p (LoadImageAsync p w) = LoadImageAsync p w ∧
    (∀ ds : List (Obj × Signal),
      LoadImageAsync p (deliverAll ds (LoadImageAsync p w)) =
        deliverAll ds (LoadImageAsync p w)) ∧
    startCount (LoadImageAsync p (LoadImageAsync p w)) = startCount (LoadImageAsync p w) ∧
    startCount (LoadImageAsync p w) ≤ startCount w + 1 ∧
    (LoadImageAsync p w).threads.length ≤ w.threads.length + 1 ∧
    (LoadImageAsync p w).loaders.length ≤ w.loaders.length + 1 := by
  have hcur : (LoadImageAsync p w).self.m_currentFilePath = p := by rw [LoadImageAsync_self]
  have hidem : LoadImageAsync p (LoadImageAsync p w) = LoadImageAsync p w :=
    LoadImageAsync_same _ _ hcur
  refine ⟨hcur, LoadImageAsync_same _ _, hidem, ?_, by rw [hidem], ?_, ?_, ?_⟩
  · intro ds
    exact LoadImageAsync_same _ _ (by rw [deliverAll_currentFilePath, hcur])
  · by_cases h : w.self.m_currentFilePath = p
    · rw [LoadImageAsync_same _ _ h]
      exact Nat.le_succ _
    · rw [startCount_LoadImageAsync_fresh _ _ h]
  · by_cases h : w.self.m_currentFilePath = p
    · rw [LoadImageAsync_same _ _ h]
      exact Nat.le_succ _
    · simp [LoadImageAsync_fresh _ _ h]
  · by_cases h : w.self.m_currentFilePath = p
    · rw [LoadImageAsync_same _ _ h]
      exact Nat.le_succ _
    · simp [LoadImageAsync_fresh _ _ h]

/-- C6 at a concrete call: `a.png` on the constructed widget. -/
theorem LoadImageAsync_idempotent_witness :
    (LoadImageAsync "a.png" construct).self.m_currentFilePath = "a.png" ∧
    (construct.self.m_currentFilePath = "a.png" → LoadImageAsync "a.png" construct = construct) ∧
    LoadImageAsync "a.png" (LoadImageAsync "a.png" construct) =
      LoadImageAsync "a.png" construct ∧
    (∀ ds : List (Obj × Signal),
      LoadImageAsync "a.png" (deliverAll ds (LoadImageAsync "a.png" construct)) =
        deliverAll ds (LoadImageAsync "a.png" construct)) ∧
    startCount (LoadImageAsync "a.png" (LoadImageAsync "a.png" construct)) =
      startCount (LoadImageAsync "a.png" construct) ∧
    startCount (LoadImageAsync "a.png" construct) ≤ startCount construct + 1 ∧
    (LoadImageAsync "a.png" construct).threads.length ≤ construct.threads.length + 1 ∧
    (LoadImageAsync "a.png" construct).loaders.length ≤ construct.loaders.length + 1 :=
  LoadImageAsync_idempotent "a.png" construct

/-- C4: the pixmap of the label is left as it is by `Initialize`,
`LoadImageAsync`, `dragEnterEvent`, `dragMoveEvent` and `dropEvent` (which does
return once the members are initialised) and by the delivery of any signal
other than `ImageReady`.  Delivery of `ImageReady(px)` leaves it or sets it to
`px`, and sets it to exactly `px` when the sender is a loader made by
`LoadImageAsync`. -/
theorem pixmap_set_only_by_ImageReady (w : World) :
    (∀ c i t, (Initialize c i t w).self.pixmap = w.self.pixmap) ∧
    (∀ p, (LoadImageAsync p w).self.pixmap = w.self.pixmap) ∧
    (∀ e, (dragEnterEvent w e).1.self.pixmap = w.self.pixmap) ∧
    (∀ e, (dragMoveEvent w e).1.self.pixmap = w.self.pixmap) ∧
    (∀ GetInspectedGameObject GetEngineSocket e r,
      dropEvent GetInspectedGameObject GetEngineSocket w e = some r →
        r.1.self.pixmap = w.self.pixmap) ∧
    (∀ GetInspectedGameObject GetEngineSocket e core inspector t,
      Initialized core inspector t w →
        (dropEvent GetInspectedGameObject GetEngineSocket w e).isSome = true) ∧
    (∀ o sig, sig.name ≠ SignalName.ImageReady → (deliver o sig w).self.pixmap = w.self.pixmap) ∧
    (∀ o px, (deliver o (Signal.ImageReady px) w).self.pixmap = some px ∨
      (deliver o (Signal.ImageReady px) w).self.pixmap = w.self.pixmap) ∧
    (∀ l px, imageReadyConnection l ∈ w.connections →
      (deliver (Obj.loader l) (Signal.ImageReady px) w).self.pixmap = some px) ∧
    (∀ p px, w.self.m_currentFilePath ≠ p →
      (deliver (Obj.loader w.loaders.length) (Signal.ImageReady px)
        (LoadImageAsync p w)).self.pixmap = some px) := by
  refine ⟨fun _ _ _ => rfl, fun p => by rw [LoadImageAsync_self], ?_, ?_,
    fun _ _ _ _ h => dropEvent_pixmap _ _ _ _ _ h,
    fun _ _ _ _ _ _ h => dropEvent_returns _ _ _ _ _ _ _ h,
    fun _ _ h => deliver_pixmap_of_ne _ _ _ h, fun _ _ => deliver_pixmap_cases _ _ _,
    fun _ _ h => deliver_imageReady_pixmap _ _ _ h,
    fun p px h => deliver_imageReady_pixmap _ _ _ (imageReadyConnection_mem p w h)⟩
  · intro e
    unfold dragEnterEvent
    split <;> rfl
  · intro e
    unfold dragMoveEvent
    split <;> rfl

/-- C4 on the initialised fresh widget. -/
theorem pixmap_set_only_by_ImageReady_witness :
    (∀ c i t, (Initialize c i t freshWidget).self.pixmap = freshWidget.self.pixmap) ∧
    (∀ p, (LoadImageAsync p freshWidget).self.pixmap = freshWidget.self.pixmap) ∧
    (∀ e, (dragEnterEvent freshWidget e).1.self.pixmap = freshWidget.self.pixmap) ∧
    (∀ e, (dragMoveEvent freshWidget e).1.self.pixmap = freshWidget.self.pixmap) ∧
    (∀ GetInspectedGameObject GetEngineSocket e r,
      dropEvent GetInspectedGameObject GetEngineSocket freshWidget e = some r →
        r.1.self.pixmap = freshWidget.self.pixmap) ∧
    (∀ GetInspectedGameObject GetEngineSocket e core inspector t,
      Initialized core inspector t freshWidget →
        (dropEvent GetInspectedGameObject GetEngineSocket freshWidget e).isSome = true) ∧
    (∀ o sig, sig.name ≠ SignalName.ImageReady →
      (deliver o sig freshWidget).self.pixmap = freshWidget.self.pixmap) ∧
    (∀ o px, (deliver o (Signal.ImageReady px) freshWidget).self.pixmap = some px ∨
      (deliver o (Signal.ImageReady px) freshWidget).self.pixmap = freshWidget.self.pixmap) ∧
    (∀ l px, imageReadyConnection l ∈ freshWidget.connections →
      (deliver (Obj.loader l) (Signal.ImageReady px) freshWidget).self.pixmap = some px) ∧
    (∀ p px, freshWidget.self.m_currentFilePath ≠ p →
      (deliver (Obj.loader freshWidget.loaders.length) (Signal.ImageReady px)
        (LoadImageAsync p freshWidget)).self.pixmap = some px) :=
  pixmap_set_only_by_ImageReady freshWidget

/-- C5: a call `LoadImageAsync p` with `p` different from `m_currentFilePath`
adds one thread (started at highest priority) and one loader (moved to that
thread, prepared for `p` at 20 by 20), adds exactly the five connections of
`wiring`, and stores nothing in the widget but the path.  Delivering the
thread's `started` runs the loader's `LoadTexture`; delivering the loader's
`Finished` runs the thread's `quit` and the loader's `deleteLater`; delivering
then the thread's `finished` runs the thread's `deleteLater`: both objects are
scheduled for deletion, and the widget's members are those the call left. -/
theorem LoadImageAsync_self_cleaning (p : String) (w : World)
    (h : w.self.m_currentFilePath ≠ p) :
    (LoadImageAsync p w).threads = w.threads ++ [startedThread] ∧
    (LoadImageAsync p w).loaders = w.loaders ++ [preparedLoader p w.threads.length] ∧
    (LoadImageAsync p w).connections =
      w.connections ++ wiring w.threads.length w.loaders.length ∧
    (LoadImageAsync p w).calls = w.calls ++ loadCalls p w.threads.length w.loaders.length ∧
    (LoadImageAsync p w).self = { w.self with m_currentFilePath := p } ∧
    loaderLoadRequested (afterStarted p w) w.loaders.length = true ∧
    threadQuitRequested (afterLoaderFinished p w) w.threads.length = true ∧
    loaderScheduledForDeletion (afterLoaderFinished p w) w.loaders.length = true ∧
    threadScheduledForDeletion (afterThreadFinished p w) w.threads.length = true ∧
    loaderScheduledForDeletion (afterThreadFinished p w) w.loaders.length = true ∧
    (afterThreadFinished p w).self = (LoadImageAsync p w).self := by
  refine ⟨?_, ?_, ?_, ?_, LoadImageAsync_self p w, started_runs_LoadTexture p w h,
    Finished_requests_quit p w h, Finished_schedules_loader p w h,
    finished_schedules_thread p w h,
    deliver_loaderScheduled _ _ _ _ (Finished_schedules_loader p w h), ?_⟩
  · rw [LoadImageAsync_fresh _ _ h]
  · rw [LoadImageAsync_fresh _ _ h]
  · rw [LoadImageAsync_fresh _ _ h]
  · rw [LoadImageAsync_fresh _ _ h]
  · unfold afterThreadFinished afterLoaderFinished
    rw [deliver_self_of_ne _ _ _ (by simp [Signal.name]),
      deliver_self_of_ne _ _ _ (by simp [Signal.name])]

/-- C5 at a concrete call: `a.png` on the constructed widget. -/
theorem LoadImageAsync_self_cleaning_witness :
    construct.self.m_currentFilePath ≠ "a.png" ∧
    (LoadImageAsync "a.png" construct).threads = construct.threads ++ [startedThread] ∧
    (LoadImageAsync "a.png" construct).loaders =
      construct.loaders ++ [preparedLoader "a.png" construct.threads.length] ∧
    (LoadImageAsync "a.png" construct).connections =
      construct.connections ++ wiring construct.threads.length construct.loaders.length ∧
    (LoadImageAsync "a.png" construct).calls =
      construct.calls ++ loadCalls "a.png" construct.threads.length construct.loaders.length ∧
    (LoadImageAsync "a.png" construct).self = { construct.self with m_currentFilePath := "a.png" } ∧
    loaderLoadRequested (afterStarted "a.png" construct) construct.loaders.length = true ∧
    threadQuitRequested (afterLoaderFinished "a.png" construct) construct.threads.length = true ∧
    loaderScheduledForDeletion (afterLoaderFinished "a.png" construct)
      construct.loaders.length = true ∧
    threadScheduledForDeletion (afterThreadFinished "a.png" construct)
      construct.threads.length = true ∧
    loaderScheduledForDeletion (afterThreadFinished "a.png" construct)
      construct.loaders.length = true ∧
    (afterThreadFinished "a.png" construct).self = (LoadImageAsync "a.png" construct).self :=
  ⟨by decide, LoadImageAsync_self_cleaning "a.png" construct (by decide)⟩

/-- C7: `dragEnterEvent` and `dragMoveEvent` return the same result on the same
input.  Each leaves the world as it is; it accepts the event exactly when the
mime data has text, then after setting the drop action to `MoveAction`;
otherwise it only calls `ignore`, and the drop action stays.  The result does
not depend on the world, so not on what is inspected: a drag with text is
accepted also when the drop of the same data is ignored because the inspector
reports no game object. -/
theorem dragEnter_dragMove_same_decision (w : World) (event : QDropEvent) :
    dragEnterEvent w event = dragMoveEvent w event ∧
    (dragEnterEvent w event).1 = w ∧
    ((dragEnterEvent w event).2.accepted = true ↔ event.mimeData.hasText = true) ∧
    (event.mimeData.hasText = true →
      (dragEnterEvent w event).2 =
        { event with
          dropAction := DropAction.MoveAction
          accepted := true
          calls := event.calls ++
            [EventCall.setDropAction DropAction.MoveAction, EventCall.accept] }) ∧
    (event.mimeData.hasText = false →
      (dragEnterEvent w event).2 =
        { event with accepted := false, calls := event.calls ++ [EventCall.ignore] }) ∧
    (∀ w2 : World, (dragEnterEvent w2 event).2 = (dragEnterEvent w event).2) ∧
    (∀ GetInspectedGameObject GetEngineSocket inspector,
      w.self.m_inspector = some inspector → GetInspectedGameObject inspector = none →
      event.mimeData.hasText = true →
        (dragEnterEvent w event).2.accepted = true ∧
        (dragMoveEvent w event).2.accepted = true ∧
        dropEvent GetInspectedGameObject GetEngineSocket w event = some (w, event.ignore) ∧
        event.ignore.accepted = false) := by
  refine ⟨rfl, ?_, ?_, ?_, ?_, ?_, ?_⟩
  · unfold dragEnterEvent
    split <;> rfl
  · cases h : event.mimeData.hasText <;>
      simp [dragEnterEvent, h, QDropEvent.ignore, QDropEvent.accept]
  · intro h
    simp [dragEnterEvent, h, QDropEvent.setDropAction, QDropEvent.accept]
  · intro h
    simp [dragEnterEvent, h, QDropEvent.ignore]
  · intro w2
    unfold dragEnterEvent
    split <;> rfl
  · intro gi gs inspector hi hg ht
    refine ⟨?_, ?_, dropEvent_ignored gi gs w event inspector hi (Or.inl hg), rfl⟩
    · simp [dragEnterEvent, ht, QDropEvent.accept]
    · simp [dragMoveEvent, ht, QDropEvent.accept]

/-- C7 at a concrete drag: text `a.png` over the initialised fresh widget. -/
theorem dragEnter_dragMove_same_decision_witness :
    (dragEnterEvent freshWidget (textEvent true "a.png")).2.accepted = true ∧
    (dragMoveEvent freshWidget (textEvent true "a.png")).2.accepted = true ∧
    dropEvent inspectingNothing socketOf freshWidget (textEvent true "a.png") =
      some (freshWidget, (textEvent true "a.png").ignore) ∧
    (textEvent true "a.png").ignore.accepted = false :=
  (dragEnter_dragMove_same_decision freshWidget (textEvent true "a.png")).2.2.2.2.2.2
    inspectingNothing socketOf ⟨2⟩ rfl rfl rfl

/-- C8, refuted as stated: loads of `a.png` then `b.png`; the `ImageReady` of
the second loader (carrying pixmap 2) is delivered first and that of the first
loader (carrying pixmap 1) last.  Both are delivered, `m_currentFilePath` is
`b.png`, and the label shows pixmap 1, the one of `a.png`. -/
theorem stale_pixmap_shown_last :
    twoLoads.loaders.map DirectusAssetLoader.prepared =
      [some ("a.png", 20, 20), some ("b.png", 20, 20)] ∧
    (deliver (Obj.loader 0) (Signal.ImageReady ⟨1⟩)
      (deliver (Obj.loader 1) (Signal.ImageReady ⟨2⟩) twoLoads)).self.m_currentFilePath =
        "b.png" ∧
    (deliver (Obj.loader 0) (Signal.ImageReady ⟨1⟩)
      (deliver (Obj.loader 1) (Signal.ImageReady ⟨2⟩) twoLoads)).self.pixmap = some ⟨1⟩ ∧
    (deliver (Obj.loader 0) (Signal.ImageReady ⟨1⟩)
      (deliver (Obj.loader 1) (Signal.ImageReady ⟨2⟩) twoLoads)).self.pixmap ≠ some ⟨2⟩ := by
  decide

/-- C8 (amended): after `LoadImageAsync p1` then `LoadImageAsync p2` with
distinct paths (`p1` not the current one), once both loaders delivered
`ImageReady` the label shows the pixmap of the signal delivered last: that of
`p2`, the value of `m_currentFilePath`, when the signal of `p1` came first (also
when it came before the second call), and that of `p1` when it came last. -/
theorem pixmap_is_last_delivered (p1 p2 : String) (px1 px2 : QPixmap) (w : World)
    (h1 : w.self.m_currentFilePath ≠ p1) (h12 : p1 ≠ p2) :
    (LoadImageAsync p2 (LoadImageAsync p1 w)).loaders =
      w.loaders ++ [preparedLoader p1 w.threads.length,
        preparedLoader p2 (w.threads.length + 1)] ∧
    (LoadImageAsync p2 (LoadImageAsync p1 w)).self.m_currentFilePath = p2 ∧
    (deliver (Obj.loader (w.loaders.length + 1)) (Signal.ImageReady px2)
      (deliver (Obj.loader w.loaders.length) (Signal.ImageReady px1)
        (LoadImageAsync p2 (LoadImageAsync p1 w)))).self.pixmap = some px2 ∧
    (deliver (Obj.loader (w.loaders.length + 1)) (Signal.ImageReady px2)
      (LoadImageAsync p2
        (deliver (Obj.loader w.loaders.length) (Signal.ImageReady px1)
          (LoadImageAsync p1 w)))).self.pixmap = some px2 ∧
    (deliver (Obj.loader w.loaders.length) (Signal.ImageReady px1)
      (deliver (Obj.loader (w.loaders.length + 1)) (Signal.ImageReady px2)
        (LoadImageAsync p2 (LoadImageAsync p1 w)))).self.pixmap = some px1 ∧
    (deliver (Obj.loader w.loaders.length) (Signal.ImageReady px1)
      (deliver (Obj.loader (w.loaders.length + 1)) (Signal.ImageReady px2)
        (LoadImageAsync p2 (LoadImageAsync p1 w)))).self.m_currentFilePath = p2 := by
  have hcur : (LoadImageAsync p1 w).self.m_currentFilePath ≠ p2 := by
    rw [LoadImageAsync_self]
    exact h12
  have hlen : (LoadImageAsync p1 w).loaders.length = w.loaders.length + 1 :=
    LoadImageAsync_loaders_length p1 w h1
  have hm1 : imageReadyConnection w.loaders.length ∈
      (LoadImageAsync p2 (LoadImageAsync p1 w)).connections :=
    connections_subset_LoadImageAsync _ _ _ (imageReadyConnection_mem p1 w h1)
  have hm2 : imageReadyConnection (w.loaders.length + 1) ∈
      (LoadImageAsync p2 (LoadImageAsync p1 w)).connections := by
    rw [← hlen]
    exact imageReadyConnection_mem p2 _ hcur
  refine ⟨?_, by rw [LoadImageAsync_self], ?_, ?_, ?_, ?_⟩
  · rw [LoadImageAsync_fresh _ _ hcur, LoadImageAsync_fresh _ _ h1]
    simp
  · apply deliver_imageReady_pixmap
    rw [deliver_connections]
    exact hm2
  · have hcur2 : (deliver (Obj.loader w.loaders.length) (Signal.ImageReady px1)
        (LoadImageAsync p1 w)).self.m_currentFilePath ≠ p2 := by
      rw [deliver_currentFilePath]
      exact hcur
    have hlen2 : (deliver (Obj.loader w.loaders.length) (Signal.ImageReady px1)
        (LoadImageAsync p1 w)).loaders.length = w.loaders.length + 1 := by
      rw [deliver_loaders_length, hlen]
    apply deliver_imageReady_pixmap
    rw [← hlen2]
    exact imageReadyConnection_mem p2 _ hcur2
  · apply deliver_imageReady_pixmap
    rw [deliver_connections]
    exact hm1
  · rw [deliver_currentFilePath, deliver_currentFilePath, LoadImageAsync_self]

/-- C8 (amended) at concrete loads: `a.png` then `b.png` on the constructed
widget, with pixmaps 1 and 2. -/
theorem pixmap_is_last_delivered_witness :
    construct.self.m_currentFilePath ≠ "a.png" ∧ "a.png" ≠ "b.png" ∧
    (deliver (Obj.loader (construct.loaders.length + 1)) (Signal.ImageReady ⟨2⟩)
      (deliver (Obj.loader construct.loaders.length) (Signal.ImageReady ⟨1⟩)
        (LoadImageAsync "b.png" (LoadImageAsync "a.png" construct)))).self.pixmap = some ⟨2⟩ ∧
    (deliver (Obj.loader construct.loaders.length) (Signal.ImageReady ⟨1⟩)
      (deliver (Obj.loader (construct.loaders.length + 1)) (Signal.ImageReady ⟨2⟩)
        (LoadImageAsync "b.png" (LoadImageAsync "a.png" construct)))).self.pixmap = some ⟨1⟩ :=
  ⟨by decide, by decide,
    (pixmap_is_last_delivered "a.png" "b.png" ⟨1⟩ ⟨2⟩ construct (by decide) (by decide)).2.2.1,
    (pixmap_is_last_delivered "a.png" "b.png" ⟨1⟩ ⟨2⟩ construct (by decide)
      (by decide)).2.2.2.2.1⟩

end DirectusTexture
